import Mathlib

/-!
Verification of `rust-typemap` (`src/src/lib.rs`): a map keyed by types,
holding one value per key type as constrained by the `Assoc` trait.

Embedding choices:
* `TypeId` (from `std::intrinsics::TypeId`) is modelled as `Nat`.  Per the
  data-model invariant, distinct tag types yield distinct `TypeId`s and the
  same tag type always yields the same `TypeId`, so a tag type is fully
  represented by its `TypeId`.
* `Box<Any>` is modelled as `AnyBox`: the runtime `TypeId` of the boxed
  value together with the value's payload (payloads drawn from `Nat`).
  `downcast_ref::<V>` succeeds exactly when the stored runtime `TypeId`
  equals `TypeId::of::<V>`.
* `std::collections::HashMap<TypeId, Box<Any>>` is modelled as an
  association list with no duplicate keys (`AList`).  The crate targets the
  2014-era Rust standard library, where `MutableMap::insert` returns `true`
  iff the key did **not** already exist (`self.swap(key, value).is_none()`)
  and `MutableMap::remove`/`pop` returns `true` iff the key was present.
* References (`&V`, `&mut V`) are modelled by the value itself; `find` and
  `find_mut` are pure observations of the map state.
-/

/-- Model of `std::intrinsics::TypeId`: a process-stable token per type. -/
abbrev TypeId := Nat

/-- Model of `Box<Any>`: an owned value together with the runtime `TypeId`
of its type, enough to attempt a downcast. -/
structure AnyBox where
  tyId : TypeId
  val : Nat
deriving DecidableEq

/-- Model of `std::collections::HashMap<TypeId, Box<Any>>`: a finite map
from `TypeId` to `AnyBox`, as an association list with no duplicate keys. -/
abbrev RustHashMap := AList (fun _ : TypeId => AnyBox)

/-- `HashMap::new()`: the empty map. -/
def RustHashMap.new : RustHashMap := ∅

/-- `HashMap::find(&k) -> Option<&Box<Any>>`. -/
def RustHashMap.find (h : RustHashMap) (k : TypeId) : Option AnyBox :=
  AList.lookup k h

/-- 2014-era `MutableMap::insert(k, v) -> bool`: stores `v` under `k`,
replacing any previous binding, and returns `true` iff `k` did **not**
already exist in the map (`self.swap(key, value).is_none()`). -/
def RustHashMap.insert (h : RustHashMap) (k : TypeId) (v : AnyBox) :
    RustHashMap × Bool :=
  (AList.insert k v h, (AList.lookup k h).isNone)

/-- 2014-era `MutableMap::remove(&k) -> bool`: deletes the binding of `k`
and returns `true` iff `k` was present. -/
def RustHashMap.remove (h : RustHashMap) (k : TypeId) : RustHashMap × Bool :=
  (AList.erase k h, (AList.lookup k h).isSome)

/-- `Map::contains_key(&k) -> bool`. -/
def RustHashMap.contains_key (h : RustHashMap) (k : TypeId) : Bool :=
  (AList.lookup k h).isSome

/-- `Collection::len(&self) -> uint`: the number of entries. -/
def RustHashMap.len (h : RustHashMap) : Nat :=
  h.entries.length

/-- `Mutable::clear(&mut self)`: removes all entries. -/
def RustHashMap.clear (_h : RustHashMap) : RustHashMap := ∅

/-- `pub struct TypeMap { data: HashMap<TypeId, Box<Any>> }`. -/
structure TypeMap where
  data : RustHashMap

/-- `AnyRefExt::downcast_ref::<V>` on a `Box<Any>`: yields the stored value
exactly when its runtime `TypeId` is `TypeId::of::<V>`, otherwise `None`. -/
def downcast_ref (V : TypeId) (b : AnyBox) : Option Nat :=
  if b.tyId = V then some b.val else none

/-- `AnyMutRefExt::downcast_mut::<V>`: same success condition as
`downcast_ref`, yielding a mutable borrow (modelled as the value itself). -/
def downcast_mut (V : TypeId) (b : AnyBox) : Option Nat :=
  if b.tyId = V then some b.val else none

/-- `TypeMap::new()`: `TypeMap { data: HashMap::new() }`. -/
def TypeMap.new : TypeMap :=
  ⟨RustHashMap.new⟩

/-- `TypeMap::insert<K: Assoc<V>, V>(&mut self, _key: K, val: V) -> bool`:
`self.data.insert(TypeId::of::<K>(), box val as Box<Any>)`.  `K` and `V`
stand for `TypeId::of::<K>` and `TypeId::of::<V>`; the `_key` argument
carries no data.  Returns the updated map and the `bool` result. -/
def TypeMap.insert (m : TypeMap) (K V : TypeId) (val : Nat) : TypeMap × Bool :=
  let r := m.data.insert K ⟨V, val⟩
  (⟨r.1⟩, r.2)

/-- `TypeMap::find<K: Assoc<V>, V>(&self, _key: K) -> Option<&V>`:
`self.data.find(&TypeId::of::<K>()).and_then(|v| v.downcast_ref::<V>())`. -/
def TypeMap.find (m : TypeMap) (K V : TypeId) : Option Nat :=
  (m.data.find K).bind (downcast_ref V)

/-- `TypeMap::find_mut<K: Assoc<V>, V>(&mut self, _key: K) -> Option<&mut V>`:
`self.data.find_mut(&TypeId::of::<K>()).and_then(|v| v.downcast_mut::<V>())`. -/
def TypeMap.find_mut (m : TypeMap) (K V : TypeId) : Option Nat :=
  (m.data.find K).bind (downcast_mut V)

/-- `TypeMap::contains<K: Assoc<V>, V>(&self, _key: K) -> bool`:
`self.data.contains_key(&TypeId::of::<K>())`.  Note `V` is unused. -/
def TypeMap.contains (m : TypeMap) (K V : TypeId) : Bool :=
  m.data.contains_key K

/-- `TypeMap::remove<K: Assoc<V>, V>(&mut self, _key: K) -> bool`:
`self.data.remove(&TypeId::of::<K>())`.  Note `V` is unused. -/
def TypeMap.remove (m : TypeMap) (K V : TypeId) : TypeMap × Bool :=
  let r := m.data.remove K
  (⟨r.1⟩, r.2)

/-- `Collection::len for TypeMap`: `self.data.len()`. -/
def TypeMap.len (m : TypeMap) : Nat :=
  m.data.len

/-- `Mutable::clear for TypeMap`: `self.data.clear()`. -/
def TypeMap.clear (m : TypeMap) : TypeMap :=
  ⟨m.data.clear⟩

/-- An operation step on the `TypeMap`, for reasoning about sequences of
the mutating operations (`find`/`find_mut`/`contains`/`len` do not change
the state, so only `insert`, `remove` and `clear` appear). -/
inductive Op where
  | ins (K V v : Nat) : Op
  | rem (K V : Nat) : Op
  | clr : Op
deriving DecidableEq

/-- Apply one operation to a map state, discarding the returned flag. -/
def applyOp (m : TypeMap) : Op → TypeMap
  | .ins K V v => (m.insert K V v).1
  | .rem K V => (m.remove K V).1
  | .clr => m.clear

/-- Run a sequence of operations from a freshly created map. -/
def run (ops : List Op) : TypeMap :=
  ops.foldl applyOp TypeMap.new

/-- Spec-side step: how one operation changes the set of Key Identities
that have been inserted and not subsequently removed or cleared. -/
def liveStep (s : Finset TypeId) : Op → Finset TypeId
  | .ins K _ _ => insert K s
  | .rem K _ => s.erase K
  | .clr => ∅

/-- Spec-side: the distinct Key Identities that have been inserted and not
subsequently removed or cleared, over an operation sequence. -/
def liveKeys (ops : List Op) : Finset TypeId :=
  ops.foldl liveStep ∅

/-- The set of keys currently bound in the map. -/
def keysFinset (m : TypeMap) : Finset TypeId :=
  m.data.keys.toFinset

lemma len_eq_keys_length (m : TypeMap) : m.len = m.data.keys.length := by
  simp [TypeMap.len, RustHashMap.len, AList.keys, List.keys]

lemma len_eq_card_keysFinset (m : TypeMap) : m.len = (keysFinset m).card := by
  rw [len_eq_keys_length, keysFinset, List.toFinset_card_of_nodup m.data.keys_nodup]

lemma contains_eq_mem (m : TypeMap) (K V : TypeId) :
    m.contains K V = true ↔ K ∈ m.data := by
  simp [TypeMap.contains, RustHashMap.contains_key, AList.lookup_isSome]

lemma keysFinset_applyOp (m : TypeMap) (op : Op) :
    keysFinset (applyOp m op) = liveStep (keysFinset m) op := by
  cases op with
  | ins K V v =>
      ext a
      simp [applyOp, liveStep, keysFinset, TypeMap.insert, RustHashMap.insert,
        AList.keys_insert, List.mem_toFinset,
        (m.data.keys_nodup.mem_erase_iff)]
      tauto
  | rem K V =>
      ext a
      simp [applyOp, liveStep, keysFinset, TypeMap.remove, RustHashMap.remove,
        AList.keys_erase, List.mem_toFinset,
        (m.data.keys_nodup.mem_erase_iff)]
  | clr =>
      rfl

lemma keysFinset_foldl (ops : List Op) :
    ∀ m : TypeMap, keysFinset (ops.foldl applyOp m) = ops.foldl liveStep (keysFinset m) := by
  induction ops with
  | nil => intro m; rfl
  | cons op ops ih =>
      intro m
      simp only [List.foldl_cons, ih, keysFinset_applyOp]

/-- C1 counterexample: on a freshly created (empty) map, no entry exists
under Key Identity 0 beforehand, yet `insert` returns `true` — so the
returned flag is not the prior-presence flag the claim describes. -/
theorem C1_counterexample :
    ¬ (((TypeMap.new.insert 0 1 42).2 = true) ↔ (TypeMap.new.contains 0 1 = true)) := by
  decide

/-- C1 (amended): for every map state and association `K : Assoc<V>`,
`insert(K, v)` returns `true` if and only if **no** entry under the Key
Identity of `K` existed in the map immediately before the call: the flag
is the prior-absence flag, the negation of `contains` beforehand (the
2014-era `HashMap::insert` returns `self.swap(key, value).is_none()`). -/
theorem C1_insert_flag_is_prior_absence (m : TypeMap) (K V v : Nat) :
    (m.insert K V v).2 = !(m.contains K V) := by
  simp only [TypeMap.insert, RustHashMap.insert, TypeMap.contains, RustHashMap.contains_key]
  cases AList.lookup K m.data <;> rfl

/-- C2: insert-find round-trip: for every Key Identity `K`, Value type `V`
with `K : Assoc<V>`, and every value `v`, starting from a freshly created
empty map, after `insert(K, v)` the call `find(K)` returns `Some v`. -/
theorem C2_insert_find_roundtrip (K V v : Nat) :
    ((TypeMap.new.insert K V v).1).find K V = some v := by
  simp [TypeMap.new, TypeMap.insert, TypeMap.find, RustHashMap.insert, RustHashMap.find,
    AList.lookup_insert, downcast_ref]

/-- C3: absence after remove: for every map state and association
`K : Assoc<V>`, after `insert(K, v)` followed by `remove(K)`,
`contains(K)` returns `false` and `find(K)` returns `None`. -/
theorem C3_absent_after_remove (m : TypeMap) (K V v : Nat) :
    ((((m.insert K V v).1).remove K V).1).contains K V = false ∧
      ((((m.insert K V v).1).remove K V).1).find K V = none := by
  constructor
  · simp [TypeMap.insert, TypeMap.remove, TypeMap.contains, RustHashMap.insert,
      RustHashMap.remove, RustHashMap.contains_key, AList.lookup_erase]
  · simp [TypeMap.insert, TypeMap.remove, TypeMap.find, RustHashMap.insert,
      RustHashMap.remove, RustHashMap.find, AList.lookup_erase]

lemma len_insert_of_mem (m : TypeMap) (K V v : Nat) (h : K ∈ m.data) :
    ((m.insert K V v).1).len = m.len := by
  have hk : K ∈ m.data.keys := AList.mem_keys.1 h
  have hlen : (m.data.keys.erase K).length + 1 = m.data.keys.length :=
    List.length_erase_add_one hk
  simp only [len_eq_keys_length, TypeMap.insert, RustHashMap.insert, AList.keys_insert,
    List.length_cons]
  omega

/-- C4: overwrite: for every map state and association `K : Assoc<V>`,
`insert(K, v1)` followed by `insert(K, v2)` leaves `find(K)` equal to
`Some v2`, and the size of the map after the second insert equals the size
after the first: the second insert replaces rather than adds an entry. -/
theorem C4_overwrite (m : TypeMap) (K V v1 v2 : Nat) :
    ((((m.insert K V v1).1).insert K V v2).1).find K V = some v2 ∧
      ((((m.insert K V v1).1).insert K V v2).1).len = ((m.insert K V v1).1).len := by
  constructor
  · simp [TypeMap.insert, TypeMap.find, RustHashMap.insert, RustHashMap.find,
      AList.lookup_insert, downcast_ref]
  · apply len_insert_of_mem
    simp only [TypeMap.insert, RustHashMap.insert]
    exact (AList.mem_insert _).2 (Or.inl rfl)

/-- C5: disjoint-key frame property: for distinct Key Identities `K1` and
`K2` (distinct tag types have distinct `TypeId`s), `insert` and `remove`
on `K1` leave `find(K2)` and `contains(K2)` unchanged.  (`find` and
`find_mut` take the map by reference and do not alter its state at all in
this model, so they trivially preserve `find(K2)` and `contains(K2)`.) -/
theorem C5_disjoint_keys_frame (m : TypeMap) (K1 V1 v K2 V2 : Nat) (h : K1 ≠ K2) :
    (((m.insert K1 V1 v).1).find K2 V2 = m.find K2 V2 ∧
      ((m.insert K1 V1 v).1).contains K2 V2 = m.contains K2 V2) ∧
    (((m.remove K1 V1).1).find K2 V2 = m.find K2 V2 ∧
      ((m.remove K1 V1).1).contains K2 V2 = m.contains K2 V2) := by
  have h' : K2 ≠ K1 := h.symm
  refine ⟨⟨?_, ?_⟩, ?_, ?_⟩ <;>
    simp [TypeMap.insert, TypeMap.remove, TypeMap.find, TypeMap.contains,
      RustHashMap.insert, RustHashMap.remove, RustHashMap.find, RustHashMap.contains_key,
      AList.lookup_insert_ne h', AList.lookup_erase_ne h']

/-- C5 witness: a concrete instantiation at `K1 = 0`, `K2 = 1` over a map
holding an entry under Key Identity 1. -/
theorem C5_disjoint_keys_frame_witness :
    (0 : Nat) ≠ 1 ∧
    (((((TypeMap.new.insert 1 7 99).1).insert 0 3 5).1).find 1 7 =
        ((TypeMap.new.insert 1 7 99).1).find 1 7 ∧
      ((((TypeMap.new.insert 1 7 99).1).insert 0 3 5).1).contains 1 7 =
        ((TypeMap.new.insert 1 7 99).1).contains 1 7) ∧
    (((((TypeMap.new.insert 1 7 99).1).remove 0 3).1).find 1 7 =
        ((TypeMap.new.insert 1 7 99).1).find 1 7 ∧
      ((((TypeMap.new.insert 1 7 99).1).remove 0 3).1).contains 1 7 =
        ((TypeMap.new.insert 1 7 99).1).contains 1 7) :=
  ⟨by decide, C5_disjoint_keys_frame ((TypeMap.new.insert 1 7 99).1) 0 3 5 1 7 (by decide)⟩

/-- C6: clear totality: for every map state, after `clear()` the size is
0, `contains(K)` is `false` for every Key Identity `K` and association
`V`, and the resulting state equals a freshly created empty map. -/
theorem C6_clear_totality (m : TypeMap) :
    (m.clear).len = 0 ∧ (∀ K V : Nat, (m.clear).contains K V = false) ∧
      m.clear = TypeMap.new := by
  exact ⟨rfl, fun K V => rfl, rfl⟩

/-- C7: size accounting: a freshly created map has size 0, and for every
sequence of mutating operations run from a freshly created map, `len`
equals the number of distinct Key Identities that have been inserted and
not subsequently removed or cleared. -/
theorem C7_size_accounting :
    TypeMap.new.len = 0 ∧ ∀ ops : List Op, (run ops).len = (liveKeys ops).card := by
  refine ⟨rfl, fun ops => ?_⟩
  rw [run, liveKeys, len_eq_card_keysFinset, keysFinset_foldl]
  rfl

lemma lookup_eq_none_of_contains_false (m : TypeMap) (K V : TypeId)
    (h : m.contains K V = false) : AList.lookup K m.data = none := by
  simp only [TypeMap.contains, RustHashMap.contains_key] at h
  cases hl : AList.lookup K m.data with
  | none => rfl
  | some b => rw [hl] at h; simp at h

/-- C8: missing-key behavior: for every map state in which no entry exists
under the Key Identity of `K` (`contains(K)` is `false`), `find(K)` and
`find_mut(K)` return `None` (they are total functions, so they cannot
fault), and `remove(K)` leaves the map unchanged and returns `false`. -/
theorem C8_missing_key (m : TypeMap) (K V : Nat) (h : m.contains K V = false) :
    m.find K V = none ∧ m.find_mut K V = none ∧
      (m.remove K V).1 = m ∧ (m.remove K V).2 = false := by
  have hl : AList.lookup K m.data = none := lookup_eq_none_of_contains_false m K V h
  have hniK : K ∉ m.data := AList.lookup_eq_none.1 hl
  have herase : AList.erase K m.data = m.data :=
    AList.ext (List.kerase_of_not_mem_keys (fun hk => hniK hk))
  refine ⟨?_, ?_, ?_, ?_⟩
  · simp [TypeMap.find, RustHashMap.find, hl]
  · simp [TypeMap.find_mut, RustHashMap.find, hl]
  · simp only [TypeMap.remove, RustHashMap.remove, herase]
  · simp [TypeMap.remove, RustHashMap.remove, hl]

/-- C8 witness: Key Identity 0 is absent from a map holding only an entry
under Key Identity 1. -/
theorem C8_missing_key_witness :
    ((TypeMap.new.insert 1 2 3).1).contains 0 5 = false ∧
      (((TypeMap.new.insert 1 2 3).1).find 0 5 = none ∧
        ((TypeMap.new.insert 1 2 3).1).find_mut 0 5 = none ∧
        ((((TypeMap.new.insert 1 2 3).1)).remove 0 5).1 = ((TypeMap.new.insert 1 2 3).1) ∧
        ((((TypeMap.new.insert 1 2 3).1)).remove 0 5).2 = false) :=
  ⟨by decide, C8_missing_key ((TypeMap.new.insert 1 2 3).1) 0 5 (by decide)⟩

/-- C9: fail-closed downcast: for every map state, if the entry stored
under the Key Identity of `K` holds a value whose runtime `TypeId` differs
from the requested Value type `V`, then `find(K)` and `find_mut(K)` return
`None` (they are total, so no fault and no mistyped borrow is possible). -/
theorem C9_fail_closed_downcast (m : TypeMap) (K V : TypeId) (b : AnyBox)
    (h1 : m.data.find K = some b) (h2 : b.tyId ≠ V) :
    m.find K V = none ∧ m.find_mut K V = none := by
  constructor
  · simp [TypeMap.find, h1, downcast_ref, h2]
  · simp [TypeMap.find_mut, h1, downcast_mut, h2]

/-- C9 witness: an entry stored under Key Identity 0 with runtime `TypeId`
5 and payload 42, queried under a conflicting association with Value type
6. -/
theorem C9_fail_closed_downcast_witness :
    (((TypeMap.new.insert 0 5 42).1).data.find 0 = some ⟨5, 42⟩ ∧ (5 : TypeId) ≠ 6) ∧
      (((TypeMap.new.insert 0 5 42).1).find 0 6 = none ∧
        ((TypeMap.new.insert 0 5 42).1).find_mut 0 6 = none) :=
  ⟨⟨by decide, by decide⟩,
    C9_fail_closed_downcast ((TypeMap.new.insert 0 5 42).1) 0 6 ⟨5, 42⟩ (by decide) (by decide)⟩

/-- C10: `contains(K)` depends only on the Key Identity of `K`: whenever
an entry exists under the `TypeId` of `K`, `contains(K)` returns `true`
under any association `K : Assoc<V2>`, even when the stored runtime
`TypeId` differs from `V2`, in which case `find(K)` under that same
association returns `None` — so `contains` and `find` disagree. -/
theorem C10_contains_ignores_value_type (m : TypeMap) (K V2 : TypeId) (b : AnyBox)
    (h1 : m.data.find K = some b) :
    m.contains K V2 = true ∧ (b.tyId ≠ V2 → m.find K V2 = none) := by
  constructor
  · simp only [TypeMap.contains, RustHashMap.contains_key]
    simp only [RustHashMap.find] at h1
    rw [h1]
    rfl
  · intro h2
    simp [TypeMap.find, h1, downcast_ref, h2]

/-- C10 witness: an entry with runtime `TypeId` 5 under Key Identity 0,
observed through an association with Value type 6: `contains` reports
`true` while `find` reports absence. -/
theorem C10_contains_ignores_value_type_witness :
    ((TypeMap.new.insert 0 5 42).1).data.find 0 = some ⟨5, 42⟩ ∧
      (((TypeMap.new.insert 0 5 42).1).contains 0 6 = true ∧
        ((5 : TypeId) ≠ 6 → ((TypeMap.new.insert 0 5 42).1).find 0 6 = none)) :=
  ⟨by decide,
    C10_contains_ignores_value_type ((TypeMap.new.insert 0 5 42).1) 0 6 ⟨5, 42⟩ (by decide)⟩
